import Mathlib

/-!
Shallow embedding of the image-geometry and AI-orchestration pipeline of
the Valmma-Placement repository (src/services/geminiService.ts, with the
touch-drop inverse mapping from src/unnamed/part_000).

JavaScript numbers are modelled as exact rationals (ℚ); all the arithmetic
performed by the embedded code is +, -, *, / and comparisons, which are
exact over ℚ.  Canvas drawing is modelled by recording the geometric
drawing commands the code issues; asynchronous AI calls are modelled by
passing each call's outcome (`Except String _`) as an explicit parameter.
-/

namespace Valmma

/-- A content rectangle inside a padded square canvas: top-left offset and
content dimensions. -/
structure ContentRect where
  offsetX : ℚ
  offsetY : ℚ
  contentWidth : ℚ
  contentHeight : ℚ
  deriving DecidableEq, Repr

/-- The content-rectangle computation performed inside `resizeImage`
(geminiService.ts lines 122-136): aspect ratio, landscape/portrait split,
centering offsets. -/
def resizeContentRect (imgWidth imgHeight targetDimension : ℚ) : ContentRect :=
  let aspect := imgWidth / imgHeight
  let newWidth := if aspect > 1 then targetDimension else targetDimension * aspect
  let newHeight := if aspect > 1 then targetDimension / aspect else targetDimension
  { offsetX := (targetDimension - newWidth) / 2
    offsetY := (targetDimension - newHeight) / 2
    contentWidth := newWidth
    contentHeight := newHeight }

/-- The content-rectangle recomputation performed inside
`cropToOriginalAspectRatio` (geminiService.ts lines 58-71), written out
independently because the source duplicates the formula there. -/
def cropContentRect (originalWidth originalHeight targetDimension : ℚ) : ContentRect :=
  let aspect := originalWidth / originalHeight
  let contentWidth := if aspect > 1 then targetDimension else targetDimension * aspect
  let contentHeight := if aspect > 1 then targetDimension / aspect else targetDimension
  { offsetX := (targetDimension - contentWidth) / 2
    offsetY := (targetDimension - contentHeight) / 2
    contentWidth := contentWidth
    contentHeight := contentHeight }

/-- The content-rectangle recomputation performed inside `markImage`
(geminiService.ts lines 216-231), again duplicated in the source. -/
def markContentRect (originalWidth originalHeight targetDimension : ℚ) : ContentRect :=
  let aspect := originalWidth / originalHeight
  let contentWidth := if aspect > 1 then targetDimension else targetDimension * aspect
  let contentHeight := if aspect > 1 then targetDimension / aspect else targetDimension
  { offsetX := (targetDimension - contentWidth) / 2
    offsetY := (targetDimension - contentHeight) / 2
    contentWidth := contentWidth
    contentHeight := contentHeight }

/-- A 2D canvas drawing command, as issued by the embedded code. -/
inductive CanvasOp where
  /-- `ctx.fillRect(x, y, w, h)` with the given `ctx.fillStyle`. -/
  | fillRect (style : String) (x y w h : ℚ)
  /-- `ctx.drawImage(img, x, y, w, h)`: draw the source image scaled into
  the destination rectangle. -/
  | drawImageScaled (x y w h : ℚ)
  /-- `ctx.drawImage(img, sx, sy, sw, sh, dx, dy, dw, dh)`: draw a source
  region into a destination rectangle. -/
  | drawImageRegion (sx sy sw sh dx dy dw dh : ℚ)
  /-- `ctx.drawImage(img, x, y)`: draw the image unscaled. -/
  | drawImageAt (x y : ℚ)
  /-- `ctx.arc(x, y, radius, ...)` filled with `fillStyle` and stroked
  with `strokeStyle`. -/
  | arc (x y radius : ℚ) (fillStyle strokeStyle : String)
  deriving DecidableEq, Repr

/-- The output of `resizeImage`: a square canvas, the drawing commands
issued on it in order, the derived content rectangle, and the produced
file's name and MIME type. -/
structure ResizedImage where
  canvasWidth : ℚ
  canvasHeight : ℚ
  ops : List CanvasOp
  content : ContentRect
  name : String
  mimeType : String
  deriving DecidableEq, Repr

/-- Embedding of `resizeImage` (geminiService.ts lines 97-156): letterbox
an image of intrinsic size `imgWidth × imgHeight` named `fileName` into a
`targetDimension × targetDimension` canvas, filling with black before
drawing the scaled image centered, and re-encoding as JPEG under the same
file name. -/
def resizeImage (imgWidth imgHeight : ℚ) (fileName : String)
    (targetDimension : ℚ) : ResizedImage :=
  let rect := resizeContentRect imgWidth imgHeight targetDimension
  { canvasWidth := targetDimension
    canvasHeight := targetDimension
    ops := [CanvasOp.fillRect "black" 0 0 targetDimension targetDimension,
            CanvasOp.drawImageScaled rect.offsetX rect.offsetY
              rect.contentWidth rect.contentHeight]
    content := rect
    name := fileName
    mimeType := "image/jpeg" }

/-- The output of `cropToOriginalAspectRatio`: the new canvas dimensions,
the source region extracted from the square input, and the source data URL
that was loaded. -/
structure CroppedImage where
  canvasWidth : ℚ
  canvasHeight : ℚ
  ops : List CanvasOp
  srcUrl : String
  mimeType : String
  deriving DecidableEq, Repr

/-- Embedding of `cropToOriginalAspectRatio` (geminiService.ts lines
48-91): recompute the content rectangle of the padded square from the
original dimensions and extract exactly that rectangle onto a canvas of
the content's size. -/
def cropToOriginalAspectRatio (imageDataUrl : String)
    (originalWidth originalHeight targetDimension : ℚ) : CroppedImage :=
  let rect := cropContentRect originalWidth originalHeight targetDimension
  { canvasWidth := rect.contentWidth
    canvasHeight := rect.contentHeight
    ops := [CanvasOp.drawImageRegion rect.offsetX rect.offsetY
              rect.contentWidth rect.contentHeight
              0 0 rect.contentWidth rect.contentHeight]
    srcUrl := imageDataUrl
    mimeType := "image/jpeg" }

/-- The output of `markImage`: the canvas (sized like the padded input),
the drawing commands, the marker geometry, and the produced file name. -/
structure MarkedImage where
  canvasWidth : ℚ
  canvasHeight : ℚ
  ops : List CanvasOp
  markerX : ℚ
  markerY : ℚ
  markerRadius : ℚ
  lineWidth : ℚ
  name : String
  mimeType : String
  deriving DecidableEq, Repr

/-- Embedding of `markImage` (geminiService.ts lines 188-268): draw the
padded square image, recompute the content rectangle from the original
dimensions, map the percent placement point into canvas pixels, and draw
a red circle with white outline there.  The source performs no bounds
check on the computed coordinates. -/
def markImage (imgWidth imgHeight : ℚ) (imgName : String)
    (xPercent yPercent : ℚ)
    (originalWidth originalHeight : ℚ) : MarkedImage :=
  let targetDimension := imgWidth
  let rect := markContentRect originalWidth originalHeight targetDimension
  let markerXInContent := xPercent / 100 * rect.contentWidth
  let markerYInContent := yPercent / 100 * rect.contentHeight
  let finalMarkerX := rect.offsetX + markerXInContent
  let finalMarkerY := rect.offsetY + markerYInContent
  let markerRadius := max 5 (min imgWidth imgHeight * (15 / 1000))
  { canvasWidth := imgWidth
    canvasHeight := imgHeight
    ops := [CanvasOp.drawImageAt 0 0,
            CanvasOp.arc finalMarkerX finalMarkerY markerRadius "red" "white"]
    markerX := finalMarkerX
    markerY := finalMarkerY
    markerRadius := markerRadius
    lineWidth := markerRadius * (2 / 10)
    name := "marked-" ++ imgName
    mimeType := "image/jpeg" }

/-- The percent-to-canvas-pixel affine map used by `markImage`
(geminiService.ts lines 230-239): offset plus percent fraction of the
content dimension. -/
def toCanvasPixel (xPercent yPercent : ℚ) (rect : ContentRect) : ℚ × ℚ :=
  (rect.offsetX + xPercent / 100 * rect.contentWidth,
   rect.offsetY + yPercent / 100 * rect.contentHeight)

/-- The canvas-pixel-to-percent inverse map used by `handleTouchEnd`
(src/unnamed/part_000 lines 317-349): subtract the offsets, reject points
outside the content rectangle, otherwise divide by the content dimensions
and scale to percent. -/
def toContentPercent (x y : ℚ) (rect : ContentRect) : Option (ℚ × ℚ) :=
  let imageX := x - rect.offsetX
  let imageY := y - rect.offsetY
  if imageX < 0 ∨ imageX > rect.contentWidth ∨
     imageY < 0 ∨ imageY > rect.contentHeight then
    none
  else
    some (imageX / rect.contentWidth * 100, imageY / rect.contentHeight * 100)

/-- Embedding of `getShadowDescription` (geminiService.ts lines 270-276). -/
def getShadowDescription (intensity : ℚ) : String :=
  if intensity ≤ 10 then "very faint and almost invisible"
  else if intensity ≤ 35 then "subtle and soft"
  else if intensity ≤ 65 then "normal and realistic"
  else if intensity ≤ 85 then "strong and defined"
  else "very dark and dramatic with high contrast"

/-- JS `string.split(str)` with a one-comma separator, over character
lists: the comma-separated chunks in order.  An input with no comma gives
a single chunk, as in JS. -/
def splitOnComma : List Char → List (List Char)
  | [] => [[]]
  | c :: rest =>
    if c = ',' then [] :: splitOnComma rest
    else
      match splitOnComma rest with
      | [] => [[c]]
      | chunk :: more => (c :: chunk) :: more

/-- The JS LineTerminator characters, which `.` (without the `s` flag)
does not match: LF, CR, LS, PS. -/
def isJsLineTerminator (c : Char) : Bool :=
  c = '\n' || c = '\r' || c = '\u2028' || c = '\u2029'

/-- The attempt of the lazy group of the regex `:(.*?);` to match starting
right after a `:`: collect characters up to the first `;`, failing at end
of input or at a line terminator (which `.` does not match). -/
def takeUntilSemi : List Char → Option (List Char)
  | [] => none
  | c :: rest =>
    if c = ';' then some []
    else if isJsLineTerminator c then none
    else (takeUntilSemi rest).map (fun g => c :: g)

/-- The regex match `header.match(/:(.*?);/)` used by `dataURLtoFile` and
`fileToPart`: scan left to right for a `:` from which a `;` is reachable,
and return the captured group between them. -/
def mimeScan : List Char → Option (List Char)
  | [] => none
  | c :: rest =>
    if c = ':' then
      match takeUntilSemi rest with
      | some g => some g
      | none => mimeScan rest
    else mimeScan rest

/-- The ASCII whitespace characters that the forgiving-base64 decode used
by `atob` strips before validating: TAB, LF, FF, CR, SPACE. -/
def isAsciiWhitespace (c : Char) : Bool :=
  c = '\t' || c = '\n' || c = '\x0c' || c = '\r' || c = ' '

/-- Membership in the base64 alphabet `A-Z a-z 0-9 + /`. -/
def isBase64Char (c : Char) : Bool :=
  (65 ≤ c.toNat && c.toNat ≤ 90) || (97 ≤ c.toNat && c.toNat ≤ 122) ||
  (48 ≤ c.toNat && c.toNat ≤ 57) || c = '+' || c = '/'

/-- The `=`-padding step of forgiving-base64 decode: when the length is a
multiple of four, remove one or two trailing `=` characters. -/
def stripTrailingEq (l : List Char) : List Char :=
  if l.length % 4 = 0 then
    match l.reverse with
    | '=' :: '=' :: rest => rest.reverse
    | '=' :: rest => rest.reverse
    | _ => l
  else l

/-- Whether `atob` accepts the payload, per forgiving-base64 decode:
strip ASCII whitespace, remove allowed trailing padding, and require a
length not congruent to 1 mod 4 and only base64-alphabet characters;
otherwise `atob` throws an `InvalidCharacterError`. -/
def validBase64 (payload : List Char) : Bool :=
  let d := payload.filter (fun c => !isAsciiWhitespace c)
  let d := stripTrailingEq d
  (d.length % 4 != 1) && d.all isBase64Char

/-- The result of `dataURLtoFile`: a fresh File value carrying the name,
the extracted MIME type and the base64 payload (the first chunk after the
first comma, which is what `atob` receives and validates). -/
structure JsFile where
  name : String
  mimeType : List Char
  base64Data : List Char
  deriving DecidableEq, Repr

/-- Embedding of `dataURLtoFile` (geminiService.ts lines 11-25): split on
commas, reject inputs without a comma, extract the MIME type with the
regex `:(.*?);` rejecting a missing or empty match, decode the payload
with `atob` (which throws `InvalidCharacterError` on non-base64 input),
and build the file. -/
def dataURLtoFile (dataurl : List Char) (filename : String) :
    Except String JsFile :=
  match splitOnComma dataurl with
  | header :: payload :: _ =>
    match mimeScan header with
    | none => Except.error "No se pudo extraer el tipo MIME de la URL de datos"
    | some m =>
      if m = [] then
        Except.error "No se pudo extraer el tipo MIME de la URL de datos"
      else if validBase64 payload then
        Except.ok { name := filename, mimeType := m, base64Data := payload }
      else
        Except.error "InvalidCharacterError"
  | _ => Except.error "URL de datos inválida"

/-- An inline-image API part: MIME type plus base64 content. -/
structure InlinePart where
  mimeType : List Char
  data : List Char
  deriving DecidableEq, Repr

/-- Embedding of `fileToPart`'s parsing (geminiService.ts lines 159-175),
which duplicates the split and the regex of `dataURLtoFile` on the file's
data URL and wraps the results in an inline-data part. -/
def fileToPart (dataUrl : List Char) : Except String InlinePart :=
  match splitOnComma dataUrl with
  | header :: payload :: _ =>
    match mimeScan header with
    | none => Except.error "No se pudo extraer el tipo MIME de la URL de datos"
    | some m =>
      if m = [] then
        Except.error "No se pudo extraer el tipo MIME de la URL de datos"
      else
        Except.ok { mimeType := m, data := payload }
  | _ => Except.error "URL de datos inválida"

/-- The character class `\s` of the JS regex `/\s+/g`: ASCII whitespace,
the line and paragraph separators, and the Unicode space separators
(NBSP, OGHAM SPACE MARK, U+2000..U+200A, NARROW NBSP, MEDIUM MATHEMATICAL
SPACE, IDEOGRAPHIC SPACE, and the BOM). -/
def isJsSpace (c : Char) : Bool :=
  c = ' ' || c = '\t' || c = '\n' || c = '\r' || c = '\x0b' || c = '\x0c' ||
  c = '\u00a0' || c = '\u1680' ||
  (0x2000 ≤ c.toNat && c.toNat ≤ 0x200a) ||
  c = '\u2028' || c = '\u2029' || c = '\u202f' || c = '\u205f' ||
  c = '\u3000' || c = '\ufeff'

/-- Helper for `replaceWsRuns`: the flag records whether the previous
character belonged to a whitespace run that already emitted its hyphen. -/
def collapseWs : Bool → List Char → List Char
  | _, [] => []
  | inRun, c :: rest =>
    if isJsSpace c then
      if inRun then collapseWs true rest
      else '-' :: collapseWs true rest
    else c :: collapseWs false rest

/-- JS `str.replace(/\s+/g, "-")`: every maximal run of whitespace is
replaced by a single hyphen. -/
def replaceWsRuns (l : List Char) : List Char := collapseWs false l

/-- A part of an AI response: optional text and optional inline image. -/
structure ResponsePart where
  text : Option String := none
  inlineData : Option InlinePart := none
  deriving DecidableEq, Repr

/-- A response candidate: its content's parts. -/
structure Candidate where
  parts : List ResponsePart
  deriving DecidableEq, Repr

/-- An AI generate-content response: its candidates. -/
structure GenResponse where
  candidates : List Candidate
  deriving DecidableEq, Repr

/-- The scan `response.candidates?.[0]?.content?.parts?.find(part =>
part.inlineData)` performed by both orchestrators: the first part of the
first candidate that carries inline image data. -/
def findInlineImagePart (response : GenResponse) : Option InlinePart :=
  match response.candidates.head? with
  | none => none
  | some c =>
    match c.parts.find? (fun p => p.inlineData.isSome) with
    | none => none
    | some p => p.inlineData

/-- The data URL `data:${mimeType};base64,${data}` built from an inline
part (geminiService.ts lines 447 and 519). -/
def inlineDataUrl (d : InlinePart) : String :=
  "data:" ++ String.mk d.mimeType ++ ";base64," ++ String.mk d.data

/-- The synthesis prompt template text before the interpolated semantic
location description (geminiService.ts lines 406-417). -/
def promptSeg1 : String :=
  "\n**Role:**\nYou are a visual composition expert. Your task is to take a \x27product\x27 image and seamlessly integrate it into a \x27scene\x27 image, adjusting for perspective, lighting, and scale.\n\n**Specifications:**\n-   **Product to add:**\n    The first image provided. It may be surrounded by black padding or background, which you should ignore and treat as transparent and only keep the product.\n-   **Scene to use:**\n    The second image provided. It may also be surrounded by black padding, which you should ignore.\n-   **Placement Instruction (Crucial):**\n    -   You must place the product at the location described below exactly. You should only place the product once. Use this dense, semantic description to find the exact spot in the scene.\n    -   **Product location Description:** \""

/-- The template text between the location description and the lighting
description (geminiService.ts lines 417-419). -/
def promptSeg2 : String :=
  "\"\n-   **Lighting & Shadow Instructions (Crucial):**\n    -   **Scene Lighting Analysis:** \""

/-- The template text between the lighting description and the shadow
intensity descriptor (geminiService.ts lines 419-421). -/
def promptSeg3 : String :=
  "\"\n    -   Based on this analysis, you MUST render shadows for the product that match the scene\x27s lighting. The shadows should be subtle, context-aware, and accurately reflect the direction, softness, and color of the light sources. The shadow must ground the product in the scene naturally.\n    -   **Shadow Intensity (Crucial User Override):** The user has specified the desired shadow intensity. You must render the shadows as: **\""

/-- The template text between the shadow descriptor and the custom
instructions clause (geminiService.ts line 421). -/
def promptSeg4 : String :=
  "\"**. This is a strict requirement."

/-- The template text after the custom instructions clause
(geminiService.ts lines 422-429). -/
def promptSeg5 : String :=
  "\n-   **Final Image Requirements:**\n    -   The output image\x27s style, lighting, shadows, reflections, and camera perspective must exactly match the original scene.\n    -   Do not just copy and paste the product. You must intelligently re-render it to fit the context. Adjust the product\x27s perspective and orientation to its most natural position, scale it appropriately.\n    -   The product must have proportional realism. For example, a lamp product can\x27t be bigger than a sofa in scene.\n    -   You must not return the original scene image without product placement. The product must be always present in the composite image.\n\nThe output should ONLY be the final, composed image. Do not add any text or explanation.\n"

/-- The `customInstructionsPart` of the synthesis prompt (geminiService.ts
lines 398-402): empty when the trimmed instructions are empty, otherwise
an override clause quoting the trimmed instructions. -/
def customInstructionsClause (customInstructions : String) : String :=
  if customInstructions.trim = "" then ""
  else
    "\n-   **User\x27s Custom Instructions (Override):**\n    -   If provided, these instructions take precedence. \"" ++
      customInstructions.trim ++ "\""

/-- The full synthesis prompt assembled by `generateCompositeImage`
(geminiService.ts lines 404-429): the fixed template with the location
description, lighting description, shadow descriptor and custom
instructions clause interpolated. -/
def compositePrompt (semanticLocationDescription lightingDescription : String)
    (shadowIntensity : ℚ) (customInstructions : String) : String :=
  promptSeg1 ++ semanticLocationDescription ++ promptSeg2 ++
    lightingDescription ++ promptSeg3 ++ getShadowDescription shadowIntensity ++
    promptSeg4 ++ customInstructionsClause customInstructions ++ promptSeg5

/-- The fixed fallback lighting sentence substituted when the
lighting-analysis AI call fails (geminiService.ts line 341). -/
def lightingFallback : String :=
  "The lighting in the scene should be analyzed to create realistic shadows."

/-- The fixed fallback phrase substituted when the location-description AI
call fails (geminiService.ts line 389). -/
def locationFallback : String := "at the specified location."

/-- The debug artifacts returned alongside the final image
(geminiService.ts lines 459-464). -/
structure DebugInfo where
  markedScene : MarkedImage
  resizedProduct : ResizedImage
  resizedScene : ResizedImage
  finalPrompt : String
  deriving DecidableEq, Repr

/-- The value returned by a successful `generateCompositeImage` run. -/
structure CompositeResult where
  finalImage : CroppedImage
  debugInfo : DebugInfo
  deriving DecidableEq, Repr

/-- Embedding of the orchestration of `generateCompositeImage`
(geminiService.ts lines 300-470).  Images are given by their intrinsic
dimensions and file names; the three AI calls' outcomes are passed as
explicit parameters.  A failed lighting or location call is absorbed with
its fixed fallback string; a failed synthesis call propagates its error;
a synthesis response without an inline image part yields the fixed fatal
error; otherwise the square result is cropped back to the original scene
aspect ratio and returned with the debug bundle. -/
def generateCompositeImage
    (objWidth objHeight : ℚ) (objName : String)
    (envWidth envHeight : ℚ) (envName : String)
    (dropXPercent dropYPercent : ℚ)
    (customInstructions : String) (shadowIntensity : ℚ)
    (lightingOutcome locationOutcome : Except String String)
    (synthesisOutcome : Except String GenResponse) :
    Except String CompositeResult :=
  let MAX_DIMENSION : ℚ := 1024
  let originalWidth := envWidth
  let originalHeight := envHeight
  let resizedObjectImage := resizeImage objWidth objHeight objName MAX_DIMENSION
  let resizedEnvironmentImage :=
    resizeImage envWidth envHeight envName MAX_DIMENSION
  let lightingDescription :=
    match lightingOutcome with
    | Except.ok t => t
    | Except.error _ => lightingFallback
  let markedResizedEnvironmentImage :=
    markImage resizedEnvironmentImage.canvasWidth
      resizedEnvironmentImage.canvasHeight resizedEnvironmentImage.name
      dropXPercent dropYPercent originalWidth originalHeight
  let semanticLocationDescription :=
    match locationOutcome with
    | Except.ok t => t
    | Except.error _ => locationFallback
  let prompt := compositePrompt semanticLocationDescription
    lightingDescription shadowIntensity customInstructions
  match synthesisOutcome with
  | Except.error e => Except.error e
  | Except.ok response =>
    match findInlineImagePart response with
    | some d =>
      let generatedSquareImageUrl := inlineDataUrl d
      let finalImage := cropToOriginalAspectRatio generatedSquareImageUrl
        originalWidth originalHeight MAX_DIMENSION
      Except.ok
        { finalImage := finalImage
          debugInfo :=
            { markedScene := markedResizedEnvironmentImage
              resizedProduct := resizedObjectImage
              resizedScene := resizedEnvironmentImage
              finalPrompt := prompt } }
    | none =>
      Except.error
        "El modelo de IA no devolvió una imagen. Por favor, inténtalo de nuevo."

/-- Embedding of `rotateProductImage` (geminiService.ts lines 478-528):
resize the product, send it with the rotation prompt, and on success
decode the returned data URL into a fresh file whose name is
`rotated-` plus the description with whitespace runs replaced by hyphens
plus the original file name; on failure or missing image part, fail. -/
def rotateProductImage (productWidth productHeight : ℚ) (productName : String)
    (rotationDescription : String)
    (synthesisOutcome : Except String GenResponse) : Except String JsFile :=
  let MAX_DIMENSION : ℚ := 1024
  let resizedProductImage :=
    resizeImage productWidth productHeight productName MAX_DIMENSION
  match synthesisOutcome with
  | Except.error e => Except.error e
  | Except.ok response =>
    match findInlineImagePart response with
    | some d =>
      let generatedImageUrl := inlineDataUrl d
      let newFileName := "rotated-" ++
        String.mk (replaceWsRuns rotationDescription.toList) ++ "-" ++
        productName
      dataURLtoFile generatedImageUrl.toList newFileName
    | none =>
      Except.error
        "El modelo de IA no devolvió una imagen rotada. Por favor, inténtalo de nuevo."

/-- A concrete inline image part used as a test input for the
orchestrator theorems. -/
def sampleInlinePart : InlinePart :=
  { mimeType := "image/png".toList, data := "QUJD".toList }

/-- A concrete synthesis response carrying one inline image part, used as
a test input for the orchestrator theorems. -/
def sampleImageResponse : GenResponse :=
  { candidates := [{ parts := [{ inlineData := some sampleInlinePart }] }] }

/-- C1: for every input image with positive width and height and every
target dimension `D ≥ 0`, `resizeImage` produces a `D × D` canvas whose
content rectangle follows the landscape/portrait formula, has both
dimensions at most `D` with at least one equal to `D`, is centered by the
half-difference offsets, and whose drawing commands fill the whole canvas
with opaque black before drawing the content. -/
theorem resizeImage_letterbox_spec (w h D : ℚ) (fileName : String)
    (hw : 0 < w) (hh : 0 < h) (hD : 0 ≤ D) :
    (resizeImage w h fileName D).canvasWidth = D ∧
    (resizeImage w h fileName D).canvasHeight = D ∧
    (if w / h > 1 then
      (resizeImage w h fileName D).content.contentWidth = D ∧
        (resizeImage w h fileName D).content.contentHeight = D / (w / h)
    else
      (resizeImage w h fileName D).content.contentHeight = D ∧
        (resizeImage w h fileName D).content.contentWidth = D * (w / h)) ∧
    (resizeImage w h fileName D).content.contentWidth ≤ D ∧
    (resizeImage w h fileName D).content.contentHeight ≤ D ∧
    ((resizeImage w h fileName D).content.contentWidth = D ∨
      (resizeImage w h fileName D).content.contentHeight = D) ∧
    (resizeImage w h fileName D).content.offsetX =
      (D - (resizeImage w h fileName D).content.contentWidth) / 2 ∧
    (resizeImage w h fileName D).content.offsetY =
      (D - (resizeImage w h fileName D).content.contentHeight) / 2 ∧
    (resizeImage w h fileName D).ops =
      [CanvasOp.fillRect "black" 0 0 D D,
       CanvasOp.drawImageScaled (resizeImage w h fileName D).content.offsetX
         (resizeImage w h fileName D).content.offsetY
         (resizeImage w h fileName D).content.contentWidth
         (resizeImage w h fileName D).content.contentHeight] := by
  by_cases hgt : w / h > 1
  · have h2 : (resizeImage w h fileName D).content.contentWidth = D := by
      simp only [resizeImage, resizeContentRect, if_pos hgt]
    have h3 : (resizeImage w h fileName D).content.contentHeight = D / (w / h) := by
      simp only [resizeImage, resizeContentRect, if_pos hgt]
    refine ⟨rfl, rfl, ?_, ?_, ?_, ?_, rfl, rfl, rfl⟩
    · rw [if_pos hgt]
      exact ⟨h2, h3⟩
    · exact h2.le
    · rw [h3]
      exact div_le_self hD hgt.le
    · exact Or.inl h2
  · have hle : w / h ≤ 1 := not_lt.mp hgt
    have h2 : (resizeImage w h fileName D).content.contentWidth = D * (w / h) := by
      simp only [resizeImage, resizeContentRect, if_neg hgt]
    have h3 : (resizeImage w h fileName D).content.contentHeight = D := by
      simp only [resizeImage, resizeContentRect, if_neg hgt]
    refine ⟨rfl, rfl, ?_, ?_, ?_, ?_, rfl, rfl, rfl⟩
    · rw [if_neg hgt]
      exact ⟨h3, h2⟩
    · rw [h2]
      exact mul_le_of_le_one_right hD hle
    · exact h3.le
    · exact Or.inr h3

/-- Witness for C1 at a concrete 800×600 image and `D = 1024`. -/
theorem resizeImage_letterbox_spec_witness :
    (resizeImage 800 600 "scene.jpg" 1024).canvasWidth = 1024 ∧
    (resizeImage 800 600 "scene.jpg" 1024).content.contentWidth ≤ 1024 ∧
    (resizeImage 800 600 "scene.jpg" 1024).content.contentHeight ≤ 1024 := by
  have h := resizeImage_letterbox_spec 800 600 1024 "scene.jpg"
    (by norm_num) (by norm_num) (by norm_num)
  exact ⟨h.1, h.2.2.2.1, h.2.2.2.2.1⟩

/-- C2: `cropToOriginalAspectRatio` recomputes the content rectangle by
exactly the same formula as `resizeImage`, extracts exactly that rectangle
onto a canvas of the content's dimensions, and the resulting canvas has
exactly the original aspect ratio (stated by cross-multiplication, hence
within one pixel of any rounding). -/
theorem cropBack_recovers_aspect (ow oh D : ℚ) (url : String)
    (how : 0 < ow) (hoh : 0 < oh) :
    cropContentRect ow oh D = resizeContentRect ow oh D ∧
    (cropToOriginalAspectRatio url ow oh D).canvasWidth =
      (resizeContentRect ow oh D).contentWidth ∧
    (cropToOriginalAspectRatio url ow oh D).canvasHeight =
      (resizeContentRect ow oh D).contentHeight ∧
    (cropToOriginalAspectRatio url ow oh D).ops =
      [CanvasOp.drawImageRegion (cropContentRect ow oh D).offsetX
        (cropContentRect ow oh D).offsetY
        (cropContentRect ow oh D).contentWidth
        (cropContentRect ow oh D).contentHeight
        0 0 (cropContentRect ow oh D).contentWidth
        (cropContentRect ow oh D).contentHeight] ∧
    (cropToOriginalAspectRatio url ow oh D).canvasWidth * oh =
      (cropToOriginalAspectRatio url ow oh D).canvasHeight * ow := by
  refine ⟨rfl, rfl, rfl, rfl, ?_⟩
  by_cases hgt : ow / oh > 1
  · simp only [cropToOriginalAspectRatio, cropContentRect, if_pos hgt]
    field_simp
  · simp only [cropToOriginalAspectRatio, cropContentRect, if_neg hgt]
    field_simp

/-- Witness for C2 at a concrete 800×600 original and `D = 1024`. -/
theorem cropBack_recovers_aspect_witness :
    (cropToOriginalAspectRatio "url" 800 600 1024).canvasWidth * 600 =
      (cropToOriginalAspectRatio "url" 800 600 1024).canvasHeight * 800 :=
  (cropBack_recovers_aspect 800 600 1024 "url" (by norm_num)
    (by norm_num)).2.2.2.2

/-- C3: the percent-to-canvas-pixel map is the affine formula
`offset + (percent/100) * contentDimension` (and is exactly the formula
`markImage` uses for its marker), and for percent coordinates in `[0,100]`
over a content rectangle with positive dimensions, mapping to a canvas
pixel and back through the touch-drop inverse recovers the original
percent exactly (hence within any floating-point tolerance). -/
theorem coordinateMapper_round_trip (rect : ContentRect) (xp yp : ℚ)
    (hx0 : 0 ≤ xp) (hx1 : xp ≤ 100) (hy0 : 0 ≤ yp) (hy1 : yp ≤ 100)
    (hcw : 0 < rect.contentWidth) (hch : 0 < rect.contentHeight) :
    toCanvasPixel xp yp rect =
      (rect.offsetX + xp / 100 * rect.contentWidth,
       rect.offsetY + yp / 100 * rect.contentHeight) ∧
    (∀ (iw ih ow oh : ℚ) (nm : String),
      (markImage iw ih nm xp yp ow oh).markerX =
        (toCanvasPixel xp yp (markContentRect ow oh iw)).1 ∧
      (markImage iw ih nm xp yp ow oh).markerY =
        (toCanvasPixel xp yp (markContentRect ow oh iw)).2) ∧
    toContentPercent (toCanvasPixel xp yp rect).1
      (toCanvasPixel xp yp rect).2 rect = some (xp, yp) := by
  refine ⟨rfl, fun iw ih ow oh nm => ⟨rfl, rfl⟩, ?_⟩
  have h100 : (0:ℚ) < 100 := by norm_num
  have hx01 : xp / 100 ≤ 1 := (div_le_one h100).mpr hx1
  have hy01 : yp / 100 ≤ 1 := (div_le_one h100).mpr hy1
  have hxn : 0 ≤ xp / 100 := div_nonneg hx0 h100.le
  have hyn : 0 ≤ yp / 100 := div_nonneg hy0 h100.le
  have hxa : 0 ≤ xp / 100 * rect.contentWidth := mul_nonneg hxn hcw.le
  have hya : 0 ≤ yp / 100 * rect.contentHeight := mul_nonneg hyn hch.le
  have hxb : xp / 100 * rect.contentWidth ≤ rect.contentWidth :=
    mul_le_of_le_one_left hcw.le hx01
  have hyb : yp / 100 * rect.contentHeight ≤ rect.contentHeight :=
    mul_le_of_le_one_left hch.le hy01
  simp only [toCanvasPixel, toContentPercent, add_sub_cancel_left]
  rw [if_neg]
  · have hxr : xp / 100 * rect.contentWidth / rect.contentWidth * 100 = xp := by
      rw [mul_div_assoc, div_self hcw.ne', mul_one]
      field_simp
    have hyr : yp / 100 * rect.contentHeight / rect.contentHeight * 100 = yp := by
      rw [mul_div_assoc, div_self hch.ne', mul_one]
      field_simp
    rw [hxr, hyr]
  · push_neg
    exact ⟨hxa, hxb, hya, hyb⟩

/-- Witness for C3 at percent point (25, 75) on the content rectangle the
pipeline computes for an 800×600 original inside a 1024 square. -/
theorem coordinateMapper_round_trip_witness :
    toContentPercent
      (toCanvasPixel 25 75 (markContentRect 800 600 1024)).1
      (toCanvasPixel 25 75 (markContentRect 800 600 1024)).2
      (markContentRect 800 600 1024) = some (25, 75) :=
  (coordinateMapper_round_trip (markContentRect 800 600 1024) 25 75
    (by norm_num) (by norm_num) (by norm_num) (by norm_num)
    (by norm_num [markContentRect]) (by norm_num [markContentRect])).2.2

/-- C6: the shadow-intensity descriptor mapping is total with exactly the
five buckets at boundaries 10, 35, 65, 85, and the sample intensities
0, 35, 65, 85, 100 map to the five descriptors in order. -/
theorem getShadowDescription_buckets :
    (∀ i : ℚ, i ≤ 10 →
      getShadowDescription i = "very faint and almost invisible") ∧
    (∀ i : ℚ, 10 < i → i ≤ 35 →
      getShadowDescription i = "subtle and soft") ∧
    (∀ i : ℚ, 35 < i → i ≤ 65 →
      getShadowDescription i = "normal and realistic") ∧
    (∀ i : ℚ, 65 < i → i ≤ 85 →
      getShadowDescription i = "strong and defined") ∧
    (∀ i : ℚ, 85 < i →
      getShadowDescription i = "very dark and dramatic with high contrast") ∧
    getShadowDescription 0 = "very faint and almost invisible" ∧
    getShadowDescription 35 = "subtle and soft" ∧
    getShadowDescription 65 = "normal and realistic" ∧
    getShadowDescription 85 = "strong and defined" ∧
    getShadowDescription 100 = "very dark and dramatic with high contrast" := by
  refine ⟨?_, ?_, ?_, ?_, ?_, by norm_num [getShadowDescription],
    by norm_num [getShadowDescription], by norm_num [getShadowDescription],
    by norm_num [getShadowDescription], by norm_num [getShadowDescription]⟩
  · intro i h1
    simp [getShadowDescription, h1]
  · intro i h1 h2
    simp [getShadowDescription, h2, not_le.mpr h1]
  · intro i h1 h2
    have := not_le.mpr h1
    have h25 : ¬ i ≤ 10 := not_le.mpr (by linarith)
    simp [getShadowDescription, h2, this, h25]
  · intro i h1 h2
    have h65 := not_le.mpr h1
    have h35 : ¬ i ≤ 35 := not_le.mpr (by linarith)
    have h10 : ¬ i ≤ 10 := not_le.mpr (by linarith)
    simp [getShadowDescription, h2, h65, h35, h10]
  · intro i h1
    have h85 := not_le.mpr h1
    have h65 : ¬ i ≤ 65 := not_le.mpr (by linarith)
    have h35 : ¬ i ≤ 35 := not_le.mpr (by linarith)
    have h10 : ¬ i ≤ 10 := not_le.mpr (by linarith)
    simp [getShadowDescription, h85, h65, h35, h10]

/-- Witness for C6 at interior points of the five buckets. -/
theorem getShadowDescription_buckets_witness :
    getShadowDescription 5 = "very faint and almost invisible" ∧
    getShadowDescription 20 = "subtle and soft" ∧
    getShadowDescription 50 = "normal and realistic" ∧
    getShadowDescription 70 = "strong and defined" ∧
    getShadowDescription 90 = "very dark and dramatic with high contrast" := by
  have h := getShadowDescription_buckets
  exact ⟨h.1 5 (by norm_num), h.2.1 20 (by norm_num) (by norm_num),
    h.2.2.1 50 (by norm_num) (by norm_num),
    h.2.2.2.1 70 (by norm_num) (by norm_num),
    h.2.2.2.2.1 90 (by norm_num)⟩

/-- C7: for placement percentages in `[0,100]` and positive original
dimensions, the marker center computed by `markImage` lies inside the
content rectangle it derives from the same original dimensions. -/
theorem markImage_marker_in_content (iw ih : ℚ) (nm : String)
    (xp yp ow oh : ℚ)
    (hx0 : 0 ≤ xp) (hx1 : xp ≤ 100) (hy0 : 0 ≤ yp) (hy1 : yp ≤ 100)
    (how : 0 < ow) (hoh : 0 < oh) (hiw : 0 ≤ iw) :
    (markContentRect ow oh iw).offsetX ≤
      (markImage iw ih nm xp yp ow oh).markerX ∧
    (markImage iw ih nm xp yp ow oh).markerX ≤
      (markContentRect ow oh iw).offsetX +
        (markContentRect ow oh iw).contentWidth ∧
    (markContentRect ow oh iw).offsetY ≤
      (markImage iw ih nm xp yp ow oh).markerY ∧
    (markImage iw ih nm xp yp ow oh).markerY ≤
      (markContentRect ow oh iw).offsetY +
        (markContentRect ow oh iw).contentHeight := by
  have haspect : 0 < ow / oh := div_pos how hoh
  have hcw : 0 ≤ (markContentRect ow oh iw).contentWidth := by
    by_cases hgt : ow / oh > 1
    · simp only [markContentRect, if_pos hgt]
      exact hiw
    · simp only [markContentRect, if_neg hgt]
      exact mul_nonneg hiw haspect.le
  have hch : 0 ≤ (markContentRect ow oh iw).contentHeight := by
    by_cases hgt : ow / oh > 1
    · simp only [markContentRect, if_pos hgt]
      exact div_nonneg hiw haspect.le
    · simp only [markContentRect, if_neg hgt]
      exact hiw
  have h100 : (0:ℚ) < 100 := by norm_num
  have hx01 : xp / 100 ≤ 1 := (div_le_one h100).mpr hx1
  have hy01 : yp / 100 ≤ 1 := (div_le_one h100).mpr hy1
  have hxa : 0 ≤ xp / 100 * (markContentRect ow oh iw).contentWidth :=
    mul_nonneg (div_nonneg hx0 h100.le) hcw
  have hya : 0 ≤ yp / 100 * (markContentRect ow oh iw).contentHeight :=
    mul_nonneg (div_nonneg hy0 h100.le) hch
  have hxb : xp / 100 * (markContentRect ow oh iw).contentWidth ≤
      (markContentRect ow oh iw).contentWidth :=
    mul_le_of_le_one_left hcw hx01
  have hyb : yp / 100 * (markContentRect ow oh iw).contentHeight ≤
      (markContentRect ow oh iw).contentHeight :=
    mul_le_of_le_one_left hch hy01
  refine ⟨?_, ?_, ?_, ?_⟩
  · exact le_add_of_nonneg_right hxa
  · exact add_le_add_left hxb _
  · exact le_add_of_nonneg_right hya
  · exact add_le_add_left hyb _

/-- Witness for C7 at the center drop point on an 800×600 scene inside
the 1024 square. -/
theorem markImage_marker_in_content_witness :
    (markContentRect 800 600 1024).offsetX ≤
      (markImage 1024 1024 "scene.jpg" 50 50 800 600).markerX ∧
    (markImage 1024 1024 "scene.jpg" 50 50 800 600).markerX ≤
      (markContentRect 800 600 1024).offsetX +
        (markContentRect 800 600 1024).contentWidth ∧
    (markContentRect 800 600 1024).offsetY ≤
      (markImage 1024 1024 "scene.jpg" 50 50 800 600).markerY ∧
    (markImage 1024 1024 "scene.jpg" 50 50 800 600).markerY ≤
      (markContentRect 800 600 1024).offsetY +
        (markContentRect 800 600 1024).contentHeight :=
  markImage_marker_in_content 1024 1024 "scene.jpg" 50 50 800 600
    (by norm_num) (by norm_num) (by norm_num) (by norm_num)
    (by norm_num) (by norm_num) (by norm_num)

/-- Any lighting description is embedded verbatim (at character level)
in the assembled synthesis prompt. -/
theorem compositePrompt_contains_lighting
    (loc light : String) (shadow : ℚ) (custom : String) :
    ∃ pre post, (compositePrompt loc light shadow custom).data =
      pre ++ light.data ++ post := by
  refine ⟨(promptSeg1 ++ loc ++ promptSeg2).data,
    (promptSeg3 ++ getShadowDescription shadow ++ promptSeg4 ++
      customInstructionsClause custom ++ promptSeg5).data, ?_⟩
  simp [compositePrompt, String.data_append, List.append_assoc]

/-- Any semantic location description is embedded verbatim (at character
level) in the assembled synthesis prompt. -/
theorem compositePrompt_contains_location
    (loc light : String) (shadow : ℚ) (custom : String) :
    ∃ pre post, (compositePrompt loc light shadow custom).data =
      pre ++ loc.data ++ post := by
  refine ⟨promptSeg1.data,
    (promptSeg2 ++ light ++ promptSeg3 ++ getShadowDescription shadow ++
      promptSeg4 ++ customInstructionsClause custom ++ promptSeg5).data, ?_⟩
  simp [compositePrompt, String.data_append, List.append_assoc]

/-- C4: a failed synthesis call propagates its error; a response with no
candidates, or whose first candidate has no inline-image part, yields the
fixed fatal error; and a response with an inline-image part yields a
`CompositeResult` whose final image is the crop-back of the generated
square image to the original scene dimensions. -/
theorem generateCompositeImage_synthesis_fatal
    (objW objH : ℚ) (objName : String) (envW envH : ℚ) (envName : String)
    (dx dy : ℚ) (custom : String) (shadow : ℚ)
    (lightingOutcome locationOutcome : Except String String) :
    (∀ e, generateCompositeImage objW objH objName envW envH envName dx dy
      custom shadow lightingOutcome locationOutcome (Except.error e) =
        Except.error e) ∧
    (∀ resp : GenResponse, resp.candidates = [] →
      generateCompositeImage objW objH objName envW envH envName dx dy
        custom shadow lightingOutcome locationOutcome (Except.ok resp) =
        Except.error
          "El modelo de IA no devolvió una imagen. Por favor, inténtalo de nuevo.") ∧
    (∀ resp : GenResponse, findInlineImagePart resp = none →
      generateCompositeImage objW objH objName envW envH envName dx dy
        custom shadow lightingOutcome locationOutcome (Except.ok resp) =
        Except.error
          "El modelo de IA no devolvió una imagen. Por favor, inténtalo de nuevo.") ∧
    (∀ (resp : GenResponse) (d : InlinePart), findInlineImagePart resp = some d →
      ∃ res, generateCompositeImage objW objH objName envW envH envName dx dy
          custom shadow lightingOutcome locationOutcome (Except.ok resp) =
          Except.ok res ∧
        res.finalImage =
          cropToOriginalAspectRatio (inlineDataUrl d) envW envH 1024) := by
  refine ⟨fun e => rfl, ?_, ?_, ?_⟩
  · intro resp h
    have hfind : findInlineImagePart resp = none := by
      simp [findInlineImagePart, h]
    simp [generateCompositeImage, hfind]
  · intro resp h
    simp [generateCompositeImage, h]
  · intro resp d h
    simp only [generateCompositeImage, h]
    exact ⟨_, rfl, rfl⟩

/-- Witness for C4: a concrete failed synthesis propagates the error, and
a concrete response with an inline image part yields a result. -/
theorem generateCompositeImage_synthesis_fatal_witness :
    generateCompositeImage 400 400 "product.jpg" 800 600 "scene.jpg" 50 50
      "" 50 (Except.ok "light") (Except.ok "loc")
      (Except.error "network error") = Except.error "network error" ∧
    (∃ res, generateCompositeImage 400 400 "product.jpg" 800 600 "scene.jpg"
      50 50 "" 50 (Except.ok "light") (Except.ok "loc")
      (Except.ok sampleImageResponse) = Except.ok res) := by
  have h := generateCompositeImage_synthesis_fatal 400 400 "product.jpg"
    800 600 "scene.jpg" 50 50 "" 50 (Except.ok "light") (Except.ok "loc")
  refine ⟨h.1 "network error", ?_⟩
  obtain ⟨res, hres, -⟩ := h.2.2.2 sampleImageResponse sampleInlinePart rfl
  exact ⟨res, hres⟩

/-- C5: when the lighting-analysis call fails, the pipeline continues with
the fixed fallback lighting sentence embedded verbatim in the final
prompt and still succeeds provided synthesis succeeds; the same holds for
the location-description call and its fixed fallback phrase. -/
theorem generateCompositeImage_analysis_fallback
    (objW objH : ℚ) (objName : String) (envW envH : ℚ) (envName : String)
    (dx dy : ℚ) (custom : String) (shadow : ℚ)
    (resp : GenResponse) (d : InlinePart)
    (himg : findInlineImagePart resp = some d) :
    (∀ (e : String) (locationOutcome : Except String String),
      ∃ res, generateCompositeImage objW objH objName envW envH envName dx dy
          custom shadow (Except.error e) locationOutcome (Except.ok resp) =
          Except.ok res ∧
        ∃ pre post, res.debugInfo.finalPrompt.data =
          pre ++ lightingFallback.data ++ post) ∧
    (∀ (e : String) (lightingOutcome : Except String String),
      ∃ res, generateCompositeImage objW objH objName envW envH envName dx dy
          custom shadow lightingOutcome (Except.error e) (Except.ok resp) =
          Except.ok res ∧
        ∃ pre post, res.debugInfo.finalPrompt.data =
          pre ++ locationFallback.data ++ post) := by
  constructor
  · intro e locationOutcome
    simp only [generateCompositeImage, himg]
    refine ⟨_, rfl, ?_⟩
    exact compositePrompt_contains_lighting _ lightingFallback shadow custom
  · intro e lightingOutcome
    simp only [generateCompositeImage, himg]
    refine ⟨_, rfl, ?_⟩
    exact compositePrompt_contains_location locationFallback _ shadow custom

/-- Witness for C5: with a failed lighting call and a successful
synthesis at concrete inputs, a result is produced whose prompt embeds
the fallback lighting sentence. -/
theorem generateCompositeImage_analysis_fallback_witness :
    ∃ res, generateCompositeImage 400 400 "product.jpg" 800 600 "scene.jpg"
        50 50 "" 50 (Except.error "network error") (Except.ok "loc")
        (Except.ok sampleImageResponse) = Except.ok res ∧
      ∃ pre post, res.debugInfo.finalPrompt.data =
        pre ++ lightingFallback.data ++ post := by
  have h := generateCompositeImage_analysis_fallback 400 400 "product.jpg"
    800 600 "scene.jpg" 50 50 "" 50 sampleImageResponse sampleInlinePart rfl
  exact h.1 "network error" (Except.ok "loc")

/-- C8 (counterexample): at the placement point (150%, 50%) on a 1024
square from an 800×600 original, the marker center 1536 computed by
`markImage` lies outside the 1024-wide canvas, yet `markImage` signals no
error: it produces a normal marked image and draws the circle at the
out-of-bounds position. -/
theorem markImage_geometry_error_counterexample :
    (markImage 1024 1024 "scene.jpg" 150 50 800 600).markerX = 1536 ∧
    (markImage 1024 1024 "scene.jpg" 150 50 800 600).canvasWidth = 1024 ∧
    (markImage 1024 1024 "scene.jpg" 150 50 800 600).ops =
      [CanvasOp.drawImageAt 0 0,
       CanvasOp.arc 1536 512 (384/25) "red" "white"] ∧
    (markImage 1024 1024 "scene.jpg" 150 50 800 600).name =
      "marked-scene.jpg" := by
  refine ⟨by norm_num [markImage, markContentRect], ?_, ?_, rfl⟩
  · rfl
  · norm_num [markImage, markContentRect]

/-- C8 (amended): `markImage` performs no bounds check: even when the
computed marker center lies outside the canvas, it raises no error, does
not clamp, and draws the marker at exactly the computed affine position. -/
theorem markImage_draws_unclamped (iw ih : ℚ) (nm : String) (xp yp ow oh : ℚ)
    (houtside : (markImage iw ih nm xp yp ow oh).markerX >
      (markImage iw ih nm xp yp ow oh).canvasWidth ∨
      (markImage iw ih nm xp yp ow oh).markerY >
        (markImage iw ih nm xp yp ow oh).canvasHeight) :
    (markImage iw ih nm xp yp ow oh).ops =
      [CanvasOp.drawImageAt 0 0,
       CanvasOp.arc (markImage iw ih nm xp yp ow oh).markerX
         (markImage iw ih nm xp yp ow oh).markerY
         (markImage iw ih nm xp yp ow oh).markerRadius "red" "white"] ∧
    (markImage iw ih nm xp yp ow oh).markerX =
      (markContentRect ow oh iw).offsetX +
        xp / 100 * (markContentRect ow oh iw).contentWidth ∧
    (markImage iw ih nm xp yp ow oh).markerY =
      (markContentRect ow oh iw).offsetY +
        yp / 100 * (markContentRect ow oh iw).contentHeight :=
  ⟨rfl, rfl, rfl⟩

/-- Witness for the amended C8 at the out-of-bounds placement point
(150%, 50%). -/
theorem markImage_draws_unclamped_witness :
    (markImage 1024 1024 "scene.jpg" 150 50 800 600).ops =
      [CanvasOp.drawImageAt 0 0,
       CanvasOp.arc (markImage 1024 1024 "scene.jpg" 150 50 800 600).markerX
         (markImage 1024 1024 "scene.jpg" 150 50 800 600).markerY
         (markImage 1024 1024 "scene.jpg" 150 50 800 600).markerRadius
         "red" "white"] :=
  (markImage_draws_unclamped 1024 1024 "scene.jpg" 150 50 800 600
    (Or.inl (by norm_num [markImage, markContentRect]))).1

/-- A list without a semicolon makes the lazy group of `:(.*?);` fail. -/
theorem takeUntilSemi_eq_none (l : List Char) (h : ';' ∉ l) :
    takeUntilSemi l = none := by
  induction l with
  | nil => rfl
  | cons c cs ih =>
    have hc : c ≠ ';' := fun he => h (he ▸ List.mem_cons_self c cs)
    by_cases hn : isJsLineTerminator c
    · simp [takeUntilSemi, hc, hn]
    · simp [takeUntilSemi, hc, hn,
        ih (fun hm => h (List.mem_cons_of_mem c hm))]

/-- The lazy group of `:(.*?);` matches up to the first semicolon when no
semicolon or line terminator precedes it. -/
theorem takeUntilSemi_append (m rest : List Char)
    (hs : ';' ∉ m) (hn : ∀ c ∈ m, isJsLineTerminator c = false) :
    takeUntilSemi (m ++ ';' :: rest) = some m := by
  induction m with
  | nil => simp [takeUntilSemi]
  | cons c cs ih =>
    have hc : c ≠ ';' := fun he => hs (he ▸ List.mem_cons_self c cs)
    have hcn : isJsLineTerminator c = false := hn c (List.mem_cons_self c cs)
    simp [takeUntilSemi, hc, hcn,
      ih (fun hm => hs (List.mem_cons_of_mem c hm))
         (fun a ha => hn a (List.mem_cons_of_mem c ha))]

/-- If a character list has no index pair `i < j` holding `:` at `i` and
`;` at `j`, the regex scan `:(.*?);` finds no match. -/
theorem mimeScan_eq_none_of_noPair (l : List Char)
    (h : ∀ i j, i < j → l.get? i = some ':' → l.get? j = some ';' → False) :
    mimeScan l = none := by
  induction l with
  | nil => rfl
  | cons c rest ih =>
    have hrest : mimeScan rest = none := by
      refine ih ?_
      intro i j hij hi hj
      exact h (i + 1) (j + 1) (by omega) (by simpa using hi) (by simpa using hj)
    by_cases hc : c = ':'
    · subst hc
      have hsemi : ';' ∉ rest := by
        intro hm
        obtain ⟨n, hn⟩ := List.get?_of_mem hm
        exact h 0 (n + 1) (Nat.succ_pos n) rfl (by simpa using hn)
      simp [mimeScan, takeUntilSemi_eq_none rest hsemi, hrest]
    · simp [mimeScan, hc, hrest]

/-- Splitting on commas around an explicit first comma: the comma-free
part before it becomes the first chunk. -/
theorem splitOnComma_append (xs ys : List Char) (h : ',' ∉ xs) :
    splitOnComma (xs ++ ',' :: ys) = xs :: splitOnComma ys := by
  induction xs with
  | nil => simp [splitOnComma]
  | cons c cs ih =>
    have hc : c ≠ ',' := fun he => h (he ▸ List.mem_cons_self c cs)
    simp [splitOnComma, hc, ih (fun hm => h (List.mem_cons_of_mem c hm))]

/-- Splitting a comma-free list gives a single chunk. -/
theorem splitOnComma_no_comma (xs : List Char) (h : ',' ∉ xs) :
    splitOnComma xs = [xs] := by
  induction xs with
  | nil => rfl
  | cons c cs ih =>
    have hc : c ≠ ',' := fun he => h (he ▸ List.mem_cons_self c cs)
    simp [splitOnComma, hc, ih (fun hm => h (List.mem_cons_of_mem c hm))]

/-- The regex scan extracts exactly the MIME type from a well-formed
`data:<mime>;base64` header when the MIME type contains no semicolon and
no newline. -/
theorem mimeScan_data_header (m : List Char)
    (hs : ';' ∉ m) (hn : ∀ c ∈ m, isJsLineTerminator c = false) :
    mimeScan ('d' :: 'a' :: 't' :: 'a' :: ':' ::
      (m ++ ';' :: ['b', 'a', 's', 'e', '6', '4'])) = some m := by
  simp [mimeScan, isJsLineTerminator,
    takeUntilSemi_append m ['b', 'a', 's', 'e', '6', '4'] hs hn]

/-- C10: for every data-URL string that does contain a comma but whose
pre-comma header has no `:` ... `;` pair around a MIME type, both
`dataURLtoFile` and `fileToPart` throw the MIME-extraction error instead
of decoding the payload. -/
theorem dataURL_missing_mime_rejected (url : List Char) (filename : String)
    (header payload : List Char) (rest : List (List Char))
    (hsplit : splitOnComma url = header :: payload :: rest)
    (hnp : ∀ i, i < header.length → ∀ j, j < header.length → i < j →
      ¬(header.get? i = some ':' ∧ header.get? j = some ';')) :
    dataURLtoFile url filename =
      Except.error "No se pudo extraer el tipo MIME de la URL de datos" ∧
    fileToPart url =
      Except.error "No se pudo extraer el tipo MIME de la URL de datos" := by
  have hnp' : ∀ i j, i < j →
      header.get? i = some ':' → header.get? j = some ';' → False := by
    intro i j hij hi hj
    exact hnp i (List.get?_eq_some.mp hi).1 j (List.get?_eq_some.mp hj).1
      hij ⟨hi, hj⟩
  have hscan := mimeScan_eq_none_of_noPair header hnp'
  constructor
  · simp [dataURLtoFile, hsplit, hscan]
  · simp [fileToPart, hsplit, hscan]

/-- Witness for C10 at the concrete string `data:image/jpeg,QUJD`, which
has a comma but no semicolon in its header. -/
theorem dataURL_missing_mime_rejected_witness :
    dataURLtoFile "data:image/jpeg,QUJD".toList "f.jpg" =
      Except.error "No se pudo extraer el tipo MIME de la URL de datos" ∧
    fileToPart "data:image/jpeg,QUJD".toList =
      Except.error "No se pudo extraer el tipo MIME de la URL de datos" :=
  dataURL_missing_mime_rejected "data:image/jpeg,QUJD".toList "f.jpg"
    "data:image/jpeg".toList "QUJD".toList [] (by decide) (by decide)

/-- C9: a failed rotation synthesis call propagates its error and a
response without an inline image part yields the fixed fatal error — in
both cases no fallback value is produced — while a response with an
inline image part (whose MIME type is nonempty and free of comma,
semicolon and line terminators, and whose payload is comma-free and
accepted by `atob`) yields a fresh file named `rotated-` plus the
description with whitespace runs replaced by hyphens plus `-` plus the
original file name. -/
theorem rotateProductImage_spec (pw ph : ℚ)
    (productName rotationDescription : String)
    (resp : GenResponse) (d : InlinePart)
    (hm1 : d.mimeType ≠ []) (hc : ',' ∉ d.mimeType) (hs : ';' ∉ d.mimeType)
    (hn : ∀ c ∈ d.mimeType, isJsLineTerminator c = false)
    (hdc : ',' ∉ d.data) (hb : validBase64 d.data = true) :
    (∀ e, rotateProductImage pw ph productName rotationDescription
      (Except.error e) = Except.error e) ∧
    (∀ r2 : GenResponse, findInlineImagePart r2 = none →
      rotateProductImage pw ph productName rotationDescription
        (Except.ok r2) =
        Except.error
          "El modelo de IA no devolvió una imagen rotada. Por favor, inténtalo de nuevo.") ∧
    (findInlineImagePart resp = some d →
      rotateProductImage pw ph productName rotationDescription
        (Except.ok resp) =
        Except.ok
          { name := "rotated-" ++
              String.mk (replaceWsRuns rotationDescription.toList) ++ "-" ++
              productName
            mimeType := d.mimeType
            base64Data := d.data }) := by
  refine ⟨fun e => rfl, ?_, ?_⟩
  · intro r2 h
    simp [rotateProductImage, h]
  · intro h
    simp only [rotateProductImage, h]
    have hhead : ',' ∉ ('d' :: 'a' :: 't' :: 'a' :: ':' ::
        (d.mimeType ++ ';' :: ['b', 'a', 's', 'e', '6', '4'])) := by
      simp [hc]
    have hurl : (inlineDataUrl d).toList =
        ('d' :: 'a' :: 't' :: 'a' :: ':' ::
          (d.mimeType ++ ';' :: ['b', 'a', 's', 'e', '6', '4'])) ++
          ',' :: d.data := by
      simp [inlineDataUrl, String.toList, String.data_append]
    rw [hurl]
    have hsplit : splitOnComma (('d' :: 'a' :: 't' :: 'a' :: ':' ::
        (d.mimeType ++ ';' :: ['b', 'a', 's', 'e', '6', '4'])) ++
        ',' :: d.data) =
        ('d' :: 'a' :: 't' :: 'a' :: ':' ::
          (d.mimeType ++ ';' :: ['b', 'a', 's', 'e', '6', '4'])) ::
          [d.data] := by
      rw [splitOnComma_append _ _ hhead, splitOnComma_no_comma d.data hdc]
    unfold dataURLtoFile
    simp only [hsplit, mimeScan_data_header d.mimeType hs hn, if_neg hm1,
      hb, if_true]

/-- Witness for C9: rotating `product.jpg` with description `back view`
and a concrete successful response yields the file named
`rotated-back-view-product.jpg`; a failed call propagates its error. -/
theorem rotateProductImage_spec_witness :
    rotateProductImage 400 400 "product.jpg" "back view"
      (Except.ok sampleImageResponse) =
      Except.ok
        { name := "rotated-back-view-product.jpg"
          mimeType := "image/png".toList
          base64Data := "QUJD".toList } ∧
    rotateProductImage 400 400 "product.jpg" "back view"
      (Except.error "network error") = Except.error "network error" := by
  have h := rotateProductImage_spec 400 400 "product.jpg" "back view"
    sampleImageResponse sampleInlinePart (by decide) (by decide) (by decide)
    (by decide) (by decide) (by decide)
  refine ⟨?_, h.1 "network error"⟩
  rw [h.2.2 rfl]
  rfl

end Valmma
